import Mathlib

/-!
Verification development for the GoogleLiveStream real-time audio pipeline.

The TypeScript sources are embedded shallowly:

* `audio-utils.ts` (PCM codec): `encodeAudioData` / `decodeAudioData`,
  with machine floats modelled as exact rationals.  Every arithmetic step
  of the pipeline (`x * 32767`, `Math.round`, int16 store, `/ 32768`) is
  exact on float32 inputs, because each intermediate value fits in a
  float64 significand, so the rational model is faithful.  The base64
  framing (`btoa` after `String.fromCharCode`, inverted by `atob` and
  `charCodeAt`) is a bijection between byte strings and their base64 text
  and is modelled away: payloads are the byte strings themselves.
* `live-audio.tsx` (page) and `gemini-live.ts` (client): the playback
  queue, the WebSocket message router, and the connection lifecycle,
  embedded as explicit state passing over `ClientState`.
* `routes.ts` (relay server): the `endTurn` message case.
* `src/unnamed/part_003` (an earlier client revision): the
  `handleGeminiMessage` audio/interruption handler.

Console logging is not part of the modelled state.
-/

/-- JavaScript `Math.round`: rounds half toward positive infinity,
`Math.round x = ⌊x + 1/2⌋`. -/
def jsRound (x : ℚ) : ℤ := Int.floor (x + 1/2)

/-- `Math.max(-1, Math.min(1, x))`, the clamp used by both codec
directions. -/
def clampUnit (x : ℚ) : ℚ := max (-1) (min 1 x)

/-- Two's-complement 16-bit little-endian serialization of one sample:
the `Int16Array` store (which wraps modulo 2^16) followed by the
`Uint8Array` view of its buffer. -/
def int16ToBytes (v : ℤ) : List ℕ :=
  let u := (v % 65536).toNat
  [u % 256, u / 256]

/-- `encodeAudioData` (audio-utils.ts 1-13), up to the base64 framing:
each sample is clamped to [-1, 1], scaled by 32767, rounded with
`Math.round`, and serialized as a little-endian signed 16-bit value. -/
def encodeAudioData : List ℚ → List ℕ
  | [] => []
  | x :: rest =>
      int16ToBytes (jsRound (clampUnit x * 32767)) ++ encodeAudioData rest

/-- `new Int16Array(buffer)` viewed as a list: consecutive byte pairs
reinterpreted as signed 16-bit little-endian integers.  (The
constructor's RangeError on an odd byte length is raised inside
`decodeAudioData`, which is where the source calls it.) -/
def bytesToInt16 : List ℕ → List ℤ
  | lo :: hi :: rest =>
      (let u := lo + 256 * hi
       if u < 32768 then (u : ℤ) else (u : ℤ) - 65536) :: bytesToInt16 rest
  | _ => []

/-- A decoded Web Audio `AudioBuffer`: per-channel float samples plus the
rate the buffer is bound to.  `length` is the frame count per channel. -/
structure AudioBuffer where
  numberOfChannels : ℕ
  length : ℕ
  sampleRate : ℕ
  channels : List (List ℚ)
deriving Repr, DecidableEq

/-- `buffer.duration`: the frame count over the sample rate, in seconds. -/
def AudioBuffer.duration (b : AudioBuffer) : ℚ :=
  (b.length : ℚ) / (b.sampleRate : ℚ)

/-- `ctx.createBuffer(numberOfChannels, length, sampleRate)`: an all-zero
buffer.  The Web Audio API raises NotSupportedError when `length` is
zero (outside its nominal range). -/
def createBuffer (numberOfChannels length sampleRate : ℕ) :
    Except String AudioBuffer :=
  if length = 0 then
    Except.error "NotSupportedError: number of frames must be at least 1"
  else
    Except.ok { numberOfChannels := numberOfChannels, length := length,
                sampleRate := sampleRate,
                channels := List.replicate numberOfChannels
                  (List.replicate length 0) }

/-- `buffer.copyToChannel(source, ch)`: copies
`min(source.length, buffer.length)` samples into channel `ch` starting at
frame 0; the remaining frames keep their previous value. -/
def copyToChannel (b : AudioBuffer) (source : List ℚ) (ch : ℕ) :
    AudioBuffer :=
  { b with channels := b.channels.set ch (source.take b.length ++ ((b.channels.getD ch []).drop (min source.length b.length))) }

/-- `dataFloat32.filter((_, index) => index % numChannels === i)`: the
samples of channel `i` of an interleaved stream. -/
def deinterleave (xs : List ℚ) (numChannels i : ℕ) : List ℚ :=
  (xs.enum.filter (fun p => p.1 % numChannels = i)).map (fun p => p.2)

/-- `decodeAudioData(data, ctx, sampleRate, numChannels)` (audio-utils.ts
24-80), with `data` the byte string obtained from the base64 text by
`decode`/`atob`.  Mirrors the source's order of effects:
`expectedSamples = Math.floor(len / 2 / numChannels)` feeds
`ctx.createBuffer` (which raises on a zero frame count), then
`new Int16Array(uint8Data.buffer)` raises a RangeError when the byte
length is odd; each 16-bit value is normalized by 32768 and clamped
(`Number.isFinite` is always true over ℚ); a single channel is copied
directly, several are de-interleaved by index. -/
def decodeAudioData (data : List ℕ) (sampleRate numChannels : ℕ) :
    Except String AudioBuffer :=
  let expectedSamples := data.length / 2 / numChannels
  match createBuffer numChannels expectedSamples sampleRate with
  | Except.error e => Except.error e
  | Except.ok buffer =>
    if data.length % 2 ≠ 0 then
      Except.error "RangeError: byte length of Int16Array should be a multiple of 2"
    else
      let dataInt16 := bytesToInt16 data
      let dataFloat32 := dataInt16.map (fun (s : ℤ) => clampUnit ((s : ℚ) / 32768))
      if numChannels = 1 then
        Except.ok (copyToChannel buffer dataFloat32 0)
      else
        Except.ok ((List.range numChannels).foldl
          (fun buf i => copyToChannel buf (deinterleave dataFloat32 numChannels i) i)
          buffer)

/-- The channel-0 sample list of a decode result (empty on failure). -/
def channel0 (e : Except String AudioBuffer) : List ℚ :=
  match e with
  | Except.ok b => b.channels.getD 0 []
  | Except.error _ => []

example : encodeAudioData [1] = [255, 127] := by
  norm_num [encodeAudioData, int16ToBytes, jsRound, clampUnit, min_def, max_def]
  decide
example : encodeAudioData [-1] = [1, 128] := by
  norm_num [encodeAudioData, int16ToBytes, jsRound, clampUnit, min_def, max_def]
  decide
example : bytesToInt16 [255, 127] = [32767] := by decide
example : bytesToInt16 [1, 128] = [-32767] := by decide
example : channel0 (decodeAudioData [255, 127] 24000 1) = [32767/32768] := by
  norm_num [decodeAudioData, createBuffer, copyToChannel, channel0,
    bytesToInt16, clampUnit, min_def, max_def]
example : (decodeAudioData [0] 24000 1).isOk = false := by decide
example : (decodeAudioData [0, 0, 0] 24000 1).isOk = false := by decide
example : (decodeAudioData [0, 0, 0, 0, 0, 0] 24000 2).isOk = true := by decide

/-- The scheduling recurrence shared by `playNextInQueue` (live-audio.tsx
47-77) and `playAudioData` (gemini-live.ts 154-174):
`startTime = max(currentTime, cursor)`, the chunk is started at
`startTime`, and the cursor advances to `startTime + duration`.
`schedStarts cursor pairs` lists each chunk's scheduled start, where
`pairs` gives, pump by pump, the clock reading `currentTime` and the
chunk's duration. -/
def schedStarts : ℚ → List (ℚ × ℚ) → List ℚ
  | _, [] => []
  | cursor, (currentTime, duration) :: rest =>
      let startTime := max currentTime cursor
      startTime :: schedStarts (startTime + duration) rest

/-- `connectionState` of the client (gemini-live.ts). -/
inductive ConnState where
  | disconnected
  | connecting
  | connected
  | error
deriving Repr, DecidableEq

/-- A JSON frame the client writes to the relay server's WebSocket, with
the base64 audio payload modelled as the byte string it encodes. -/
inductive ClientFrame where
  | audioFrame (data : List ℕ) (mimeType : String)
  | endTurnFrame
  | textFrame (text : String)
deriving Repr, DecidableEq

/-- The observable state of one client session: the `GeminiLiveClient`
fields together with the live-audio.tsx page refs it drives.  The
`stateChanges`, `errors` and `texts` lists record the UI callback
invocations (`onConnectionStateChange`, `onError`, `onTextReceived`);
`sentFrames` records every frame written to the WebSocket;
`scheduledStarts` records each started source as (startTime, duration). -/
structure ClientState where
  connectionState : ConnState
  websocketOpen : Bool
  sentFrames : List ClientFrame
  stateChanges : List ConnState
  errors : List String
  texts : List String
  contextCreated : Bool
  audioQueue : List AudioBuffer
  nextPlayTime : ℚ
  isPlaying : Bool
  scheduledStarts : List (ℚ × ℚ)
  isRecording : Bool
deriving Repr, DecidableEq

/-- `setConnectionState` (gemini-live.ts 304-307): stores the state and
invokes the `onConnectionStateChange` callback. -/
def setConnectionState (s : ConnState) (st : ClientState) : ClientState :=
  { st with connectionState := s, stateChanges := st.stateChanges ++ [s] }

/-- The fixed capture rate of the input device (16 kHz), as declared by
`createAudioBlob` and the getUserMedia constraints. -/
def inputCaptureRate : ℕ := 16000

/-- `createAudioBlob` (audio-utils.ts 82-87): the encoded bytes tagged
with the fixed input mime descriptor. -/
def createAudioBlob (audioData : List ℚ) : List ℕ × String :=
  (encodeAudioData audioData, "audio/pcm;rate=16000")

/-- `GeminiLiveClient.sendAudio` (gemini-live.ts 237-260): with no
websocket or a connection state other than connected the frame is dropped
(console warning only, nothing queued); otherwise it is encoded via
`createAudioBlob` and written synchronously to the websocket. -/
def sendAudio (st : ClientState) (audioData : List ℚ) : ClientState :=
  if st.websocketOpen = false ∨ st.connectionState ≠ ConnState.connected then st
  else
    let audioBlob := createAudioBlob audioData
    { st with sentFrames := st.sentFrames ++ [ClientFrame.audioFrame audioBlob.1 audioBlob.2] }

/-- `GeminiLiveClient.endTurn` (gemini-live.ts 262-279): same guard as
`sendAudio`; when connected it writes one endTurn frame. -/
def endTurn (st : ClientState) : ClientState :=
  if st.websocketOpen = false ∨ st.connectionState ≠ ConnState.connected then st
  else { st with sentFrames := st.sentFrames ++ [ClientFrame.endTurnFrame] }

/-- `GeminiLiveClient.isConnected` (gemini-live.ts 300-302). -/
def isConnected (st : ClientState) : Bool :=
  st.connectionState = ConnState.connected

/-- `handleStopRecording` (live-audio.tsx 248-270): tears down the
capture media (outside the modelled state), signals turn completion via
`endTurn` whenever the client reports itself connected, and clears the
recording flag.  Nothing marks the turn as already ended, so a repeated
stop signal goes through `endTurn` again. -/
def handleStopRecording (st : ClientState) : ClientState :=
  let st := if isConnected st then endTurn st else st
  { st with isRecording := false }

/-- `playNextInQueue` (live-audio.tsx 47-77): a no-op when there is no
playback context, the queue is empty, or a chunk is already sounding;
otherwise it shifts the head chunk, starts it at
`max(currentTime, nextPlayTime)` and advances the cursor by the chunk's
duration. -/
def playNextInQueue (currentTime : ℚ) (st : ClientState) : ClientState :=
  if st.contextCreated = false ∨ st.audioQueue = [] ∨ st.isPlaying = true then st
  else
    match st.audioQueue with
    | [] => st
    | buffer :: rest =>
        let startTime := max currentTime st.nextPlayTime
        { st with audioQueue := rest, isPlaying := true,
                  scheduledStarts := st.scheduledStarts ++ [(startTime, buffer.duration)],
                  nextPlayTime := startTime + buffer.duration }

/-- The `source.onended` completion callback registered by
`playNextInQueue`: clears the playing flag and pumps again. -/
def onEnded (currentTime : ℚ) (st : ClientState) : ClientState :=
  playNextInQueue currentTime { st with isPlaying := false }

/-- The characters of `s.split('rate=')[1]`: JS split's second piece is
the text between the first occurrence of `rate=` and the next one;
`parseInt` reads only leading digits and `rate=` starts with a
non-digit, so the whole suffix after the first occurrence is an
equivalent model.  `none` when the separator does not occur (`[1]` is
then undefined). -/
def afterRateEq : List Char → Option (List Char)
  | [] => none
  | c :: rest =>
      if c = 'r' ∧ rest.take 4 = ['a', 't', 'e', '='] then some (rest.drop 4)
      else afterRateEq rest

/-- The numeric value of a decimal digit run. -/
def digitsToNat (ds : List Char) : ℕ :=
  ds.foldl (fun n c => 10 * n + (c.toNat - 48)) 0

/-- `parseInt(mimeType.split('rate=')[1]) || 24000` (live-audio.tsx 143):
the declared sample rate of a frame.  `parseInt` (no sign or whitespace
occurs here) reads the leading decimal digit run, giving NaN when it is
empty or the split produced no second piece; `|| 24000` then substitutes
24000 for NaN and for the falsy 0. -/
def parseDeclaredRate (mimeType : String) : ℕ :=
  match afterRateEq mimeType.data with
  | none => 24000
  | some cs =>
      let digits := cs.takeWhile Char.isDigit
      if digits = [] then 24000
      else if digitsToNat digits = 0 then 24000
      else digitsToNat digits

/-- `playAudioResponse` (live-audio.tsx 138-186): parses the declared
rate from the mimeType (used only for logging), lazily creates the fixed
24 kHz playback context — initializing the cursor to the current clock —
then decodes the payload at the hard-coded arguments `24000, 1` and, on
success, appends the chunk to the queue and pumps; a decode failure is
caught and surfaced as an error message, leaving the queue and cursor
untouched. -/
def playAudioResponse (currentTime : ℚ) (st : ClientState)
    (base64AudioData : List ℕ) (mimeType : String) : ClientState :=
  let _sampleRate := parseDeclaredRate mimeType
  let st :=
    if st.contextCreated = false then
      { st with contextCreated := true, nextPlayTime := currentTime }
    else st
  match decodeAudioData base64AudioData 24000 1 with
  | Except.ok audioBuffer =>
      playNextInQueue currentTime { st with audioQueue := st.audioQueue ++ [audioBuffer] }
  | Except.error e =>
      { st with errors := st.errors ++ ["Playback error: " ++ e] }

/-- A JSON message from the relay server as read by
`handleServerMessage`; absent fields are `none`, and the base64 audio
payload is modelled as the byte string it encodes. -/
structure ServerMsg where
  type : String
  data : Option (List ℕ) := none
  text : Option String := none
  mimeType : Option String := none
  error : Option String := none
deriving Repr, DecidableEq

/-- JS truthiness of an optional string field (`undefined` and `""` are
falsy). -/
def truthyStr : Option String → Bool
  | none => false
  | some s => s ≠ ""

/-- JS truthiness of the optional base64 payload (`undefined` and the
empty string are falsy). -/
def truthyData : Option (List ℕ) → Bool
  | none => false
  | some d => d ≠ []

/-- `message.mimeType || 'audio/pcm;rate=24000'`: JS `||` with a string
default. -/
def jsOrStr (o : Option String) (dflt : String) : String :=
  match o with
  | some s => if s = "" then dflt else s
  | none => dflt

/-- `handleServerMessage` (gemini-live.ts 112-152) composed with the
page's callback wiring (live-audio.tsx 92-135): `connected` sets the
connection state, `audio` forwards the payload and mime type to
`playAudioResponse`, `text` invokes the text callback, `error` records
the message and enters the error state, and every other type — including
the `interrupted` frame the server emits (routes.ts 210-213) — only hits
the default branch, which logs it as unknown and changes nothing. -/
def handleServerMessage (currentTime : ℚ) (st : ClientState)
    (message : ServerMsg) : ClientState :=
  if message.type = "connected" then setConnectionState ConnState.connected st
  else if message.type = "audio" then
    if truthyData message.data then
      playAudioResponse currentTime st (message.data.getD [])
        (jsOrStr message.mimeType "audio/pcm;rate=24000")
    else st
  else if message.type = "text" then
    if truthyStr message.text then { st with texts := st.texts ++ [message.text.getD ""] }
    else st
  else if message.type = "error" then
    let st := setConnectionState ConnState.error st
    { st with errors := st.errors ++ [message.error.getD ""] }
  else st

/-- The synchronous prefix of `GeminiLiveClient.connect` (gemini-live.ts
33-110; identically guarded in part_003 lines 35-39): when already
connected or connecting it returns at once, touching nothing; otherwise
the state moves to connecting (first callback) and the asynchronous
handshake — API-key fetch, WebSocket open, setup frame — begins, which
the returned flag reports. -/
def connect (st : ClientState) : ClientState × Bool :=
  if st.connectionState = ConnState.connected ∨ st.connectionState = ConnState.connecting then
    (st, false)
  else (setConnectionState ConnState.connecting st, true)

/-- `GeminiLiveClient.disconnect` (gemini-live.ts 219-235): closes the
websocket, stops every live source (a device effect outside the modelled
state), and sets the state to disconnected. -/
def disconnect (st : ClientState) : ClientState :=
  setConnectionState ConnState.disconnected { st with websocketOpen := false }

/-- `websocket.onclose` (gemini-live.ts 84-102): always records the
disconnect; for close codes other than 1000 (normal closure) and 1001
(going away) it runs `disconnect()` and schedules exactly one reconnect
timer with the fixed 2000 ms delay.  Returns the new state and the list
of scheduled retry delays. -/
def websocketOnClose (code : ℕ) (st : ClientState) : ClientState × List ℕ :=
  let st := setConnectionState ConnState.disconnected st
  if code ≠ 1000 ∧ code ≠ 1001 then (disconnect st, [2000])
  else (st, [])

/-- The body of the reconnect timer (gemini-live.ts 93-100): re-invokes
`connect` only when the state is still disconnected. -/
def reconnectTimerFire (st : ClientState) : ClientState × Bool :=
  if st.connectionState = ConnState.disconnected then connect st else (st, false)

/-- The relay server's per-connection view: the frames it has forwarded
downstream to the Live API session. -/
structure ServerState where
  downstreamFrames : List String
deriving Repr, DecidableEq

/-- routes.ts `case 'endTurn'` (332-337): deliberately forwards nothing
to the Live API — every explicit turn-completion signal was removed in
favour of the service's own turn detection — so the handler only logs. -/
def serverHandleEndTurn (srv : ServerState) : ServerState := srv

/-- The playback fields of the part_003 client revision used by its
`handleGeminiMessage`: the cursor and the set of live sources, each
recorded as (startTime, duration). -/
structure P3State where
  nextStartTime : ℚ
  sources : List (ℚ × ℚ)
deriving Repr, DecidableEq

/-- `handleGeminiMessage` (src/unnamed/part_003, lines 133-187): the
audio branch first lifts the cursor to `max(cursor, currentTime)`,
schedules the decoded buffer there and advances the cursor by its
duration; the interrupted branch stops and removes every live source and
resets the cursor to 0. -/
def p3HandleGeminiMessage (currentTime : ℚ) (audio : Option AudioBuffer)
    (interrupted : Bool) (st : P3State) : P3State :=
  let st :=
    match audio with
    | some buf =>
        let t := max st.nextStartTime currentTime
        { st with nextStartTime := t + buf.duration,
                  sources := st.sources ++ [(t, buf.duration)] }
    | none => st
  if interrupted then { st with sources := [], nextStartTime := 0 }
  else st

/-- A quiescent client session used to instantiate witnesses and
counterexamples. -/
def baseState : ClientState :=
  { connectionState := ConnState.disconnected, websocketOpen := false,
    sentFrames := [], stateChanges := [], errors := [], texts := [],
    contextCreated := false, audioQueue := [], nextPlayTime := 0,
    isPlaying := false, scheduledStarts := [], isRecording := false }

example : parseDeclaredRate "audio/pcm;rate=16000" = 16000 := by decide
example : parseDeclaredRate "audio/pcm;rate=24000" = 24000 := by decide
example : parseDeclaredRate "audio/pcm" = 24000 := by decide

/-- A connected client session with an open websocket and an empty frame
log. -/
def connectedState : ClientState :=
  { baseState with connectionState := ConnState.connected, websocketOpen := true }

/-- A session whose playback context already exists and whose current
chunk is still sounding, so a newly decoded chunk stays in the queue. -/
def primedState : ClientState :=
  { baseState with contextCreated := true, isPlaying := true }

theorem handleServerMessage_default_noop (currentTime : ℚ) (st : ClientState)
    (message : ServerMsg) (h1 : message.type ≠ "connected")
    (h2 : message.type ≠ "audio") (h3 : message.type ≠ "text")
    (h4 : message.type ≠ "error") :
    handleServerMessage currentTime st message = st := by
  unfold handleServerMessage
  rw [if_neg h1, if_neg h2, if_neg h3, if_neg h4]

theorem playNextInQueue_cursor_mono (t : ℚ) (st : ClientState) :
    st.nextPlayTime ≤ (playNextInQueue t st).nextPlayTime := by
  unfold playNextInQueue
  split
  · exact le_refl _
  · split
    · exact le_refl _
    · rename_i buffer rest heq
      have h1 : st.nextPlayTime ≤ max t st.nextPlayTime := le_max_right _ _
      have h2 : (0 : ℚ) ≤ buffer.duration :=
        div_nonneg (Nat.cast_nonneg _) (Nat.cast_nonneg _)
      simpa using by linarith

theorem playNextInQueue_queue_cases (t : ℚ) (st : ClientState) :
    (playNextInQueue t st).audioQueue = st.audioQueue ∨
    (playNextInQueue t st).audioQueue = st.audioQueue.tail := by
  unfold playNextInQueue
  split
  · exact Or.inl rfl
  · split
    · exact Or.inl rfl
    · rename_i buffer rest heq
      right
      rw [heq]
      rfl

theorem playAudioResponse_cursor_mono (t : ℚ) (st : ClientState)
    (data : List ℕ) (mime : String) (hctx : st.contextCreated = true) :
    st.nextPlayTime ≤ (playAudioResponse t st data mime).nextPlayTime := by
  unfold playAudioResponse
  rw [if_neg (by simp [hctx])]
  split
  · rename_i buffer heq
    exact playNextInQueue_cursor_mono t _
  · exact le_refl _

theorem onEnded_cursor_mono (t : ℚ) (st : ClientState) :
    st.nextPlayTime ≤ (onEnded t st).nextPlayTime :=
  playNextInQueue_cursor_mono t _

/-- C7: every `sendAudio` while the connection state is not Connected
drops the frame: nothing is written to the link, nothing is queued, and
the whole session state — connection flags, sent-frame log, playback and
recording state — is unchanged; iterating any number of such calls
accumulates no backlog. -/
theorem sendAudio_disconnected_drops (st : ClientState) (frame : List ℚ)
    (frames : List (List ℚ)) (h : st.connectionState ≠ ConnState.connected) :
    sendAudio st frame = st ∧ frames.foldl sendAudio st = st := by
  have h1 : ∀ f, sendAudio st f = st := by
    intro f
    unfold sendAudio
    rw [if_pos (Or.inr h)]
  refine ⟨h1 frame, ?_⟩
  induction frames with
  | nil => rfl
  | cons f fs ih => rw [List.foldl_cons, h1 f, ih]

theorem sendAudio_disconnected_drops_witness :
    baseState.connectionState ≠ ConnState.connected ∧
    (sendAudio baseState [0] = baseState ∧
      [[0], [1, -1]].foldl sendAudio baseState = baseState) :=
  ⟨by decide, sendAudio_disconnected_drops baseState [0] [[0], [1, -1]] (by decide)⟩

/-- C10: `connect` invoked while the state is already connected or
connecting returns at once as a complete no-op: the state (including the
callback logs and sent-frame log) is unchanged and no handshake — no
WebSocket, no setup frame — is started. -/
theorem connect_already_active_noop (st : ClientState)
    (h : st.connectionState = ConnState.connected ∨
      st.connectionState = ConnState.connecting) :
    connect st = (st, false) := by
  unfold connect
  rw [if_pos h]

theorem connect_already_active_noop_witness :
    (connectedState.connectionState = ConnState.connected ∨
      connectedState.connectionState = ConnState.connecting) ∧
    connect connectedState = (connectedState, false) :=
  ⟨Or.inl rfl, connect_already_active_noop connectedState (Or.inl rfl)⟩

/-- C8 (amended): after a closure whose code is neither 1000 (normal)
nor 1001 (going away), exactly one reconnect timer is scheduled, with
the fixed 2000 ms delay; the session state is disconnected, and when the
timer fires with no interim user action the single reconnection attempt
proceeds. -/
theorem onclose_abnormal_single_retry (code : ℕ) (st : ClientState)
    (h1 : code ≠ 1000) (h2 : code ≠ 1001) :
    (websocketOnClose code st).2 = [2000] ∧
    (websocketOnClose code st).1.connectionState = ConnState.disconnected ∧
    (reconnectTimerFire (websocketOnClose code st).1).2 = true := by
  unfold websocketOnClose
  rw [if_pos (And.intro h1 h2)]
  refine ⟨rfl, rfl, ?_⟩
  rfl

theorem onclose_abnormal_single_retry_witness :
    ((1006 : ℕ) ≠ 1000 ∧ (1006 : ℕ) ≠ 1001) ∧
    ((websocketOnClose 1006 baseState).2 = [2000] ∧
      (websocketOnClose 1006 baseState).1.connectionState = ConnState.disconnected ∧
      (reconnectTimerFire (websocketOnClose 1006 baseState).1).2 = true) :=
  ⟨⟨by decide, by decide⟩,
    onclose_abnormal_single_retry 1006 baseState (by decide) (by decide)⟩

/-- C8 counterexample: close code 1001 is not the normal closure code
1000 — so under the claim's definition the closure is abnormal — yet the
handler schedules no reconnection attempt at all. -/
theorem onclose_1001_schedules_no_retry :
    (1001 : ℕ) ≠ 1000 ∧ (websocketOnClose 1001 baseState).2 = [] := by
  exact ⟨by decide, by decide⟩

/-- C9 counterexample: with the session connected, a stop-capture
trigger followed by a duplicate stop in the same state writes two
endTurn frames to the relay server (the duplicate is not a no-op), and
the relay server's own endTurn handler forwards nothing downstream at
all (so no turn-completion frame ever reaches the remote service). -/
theorem duplicate_stop_sends_second_frame :
    (handleStopRecording (handleStopRecording connectedState)).sentFrames =
      [ClientFrame.endTurnFrame, ClientFrame.endTurnFrame] ∧
    serverHandleEndTurn { downstreamFrames := [] } = { downstreamFrames := [] } := by
  exact ⟨by decide, rfl⟩

/-- C9 (amended): each stop-capture trigger while the session is
connected appends exactly one endTurn frame to the WebSocket (so a
duplicate stop appends another — the trigger is not idempotent), leaves
the session connected, and the relay server's endTurn case deliberately
forwards no turn-completion frame downstream. -/
theorem stop_sends_one_endturn_per_call (st : ClientState) (srv : ServerState)
    (h1 : st.connectionState = ConnState.connected) (h2 : st.websocketOpen = true) :
    (handleStopRecording st).sentFrames = st.sentFrames ++ [ClientFrame.endTurnFrame] ∧
    (handleStopRecording st).connectionState = ConnState.connected ∧
    (handleStopRecording st).websocketOpen = true ∧
    serverHandleEndTurn srv = srv := by
  unfold handleStopRecording endTurn isConnected
  rw [h1, h2]
  simp [serverHandleEndTurn]

theorem stop_sends_one_endturn_per_call_witness :
    (connectedState.connectionState = ConnState.connected ∧
      connectedState.websocketOpen = true) ∧
    ((handleStopRecording connectedState).sentFrames =
        connectedState.sentFrames ++ [ClientFrame.endTurnFrame] ∧
      (handleStopRecording connectedState).connectionState = ConnState.connected ∧
      (handleStopRecording connectedState).websocketOpen = true ∧
      serverHandleEndTurn { downstreamFrames := [] } = { downstreamFrames := [] }) :=
  ⟨⟨rfl, rfl⟩,
    stop_sends_one_endturn_per_call connectedState { downstreamFrames := [] } rfl rfl⟩

/-- C4: the interruption control frame forwarded by the relay server
(`{type: 'interrupted'}`, routes.ts 210-213) falls through to the
client router's default branch: the entire session state — pending
audio queue, playing flag, scheduled sources, cursor — is left exactly
as it was, so nothing is emptied and nothing is stopped. -/
theorem interrupted_frame_is_ignored (currentTime : ℚ) (st : ClientState) :
    handleServerMessage currentTime st { type := "interrupted" } = st :=
  handleServerMessage_default_noop currentTime st _
    (by decide) (by decide) (by decide) (by decide)

/-- C5 (amended): the cursor never decreases under a queue pump, a
completion callback, or an inbound audio frame, and the active client's
router leaves the whole state unchanged on an interruption frame; the
part_003 revision's handler, by contrast, resets the cursor to 0 on
interruption (a decrease whenever it was positive), while its audio
branch also never decreases it. -/
theorem cursor_monotone_outside_p3_interrupt (t : ℚ) (st : ClientState)
    (data : List ℕ) (mime : String) (buf : AudioBuffer) (p3 : P3State)
    (hctx : st.contextCreated = true) :
    st.nextPlayTime ≤ (playNextInQueue t st).nextPlayTime ∧
    st.nextPlayTime ≤ (onEnded t st).nextPlayTime ∧
    st.nextPlayTime ≤ (playAudioResponse t st data mime).nextPlayTime ∧
    handleServerMessage t st { type := "interrupted" } = st ∧
    p3.nextStartTime ≤ (p3HandleGeminiMessage t (some buf) false p3).nextStartTime ∧
    (p3HandleGeminiMessage t none true p3).nextStartTime = 0 := by
  refine ⟨playNextInQueue_cursor_mono t st, onEnded_cursor_mono t st,
    playAudioResponse_cursor_mono t st data mime hctx,
    handleServerMessage_default_noop t st _ (by decide) (by decide) (by decide) (by decide),
    ?_, rfl⟩
  unfold p3HandleGeminiMessage
  have h1 : p3.nextStartTime ≤ max p3.nextStartTime t := le_max_left _ _
  have h2 : (0 : ℚ) ≤ buf.duration :=
    div_nonneg (Nat.cast_nonneg _) (Nat.cast_nonneg _)
  simpa using by linarith

theorem cursor_monotone_outside_p3_interrupt_witness :
    primedState.contextCreated = true ∧
    (primedState.nextPlayTime ≤ (playNextInQueue 0 primedState).nextPlayTime ∧
      primedState.nextPlayTime ≤ (onEnded 0 primedState).nextPlayTime ∧
      primedState.nextPlayTime ≤
        (playAudioResponse 0 primedState [0, 0] "audio/pcm;rate=24000").nextPlayTime ∧
      handleServerMessage 0 primedState { type := "interrupted" } = primedState ∧
      (3 : ℚ) ≤ (p3HandleGeminiMessage 0 (some ⟨1, 1, 24000, [[0]]⟩) false
        { nextStartTime := 3, sources := [] }).nextStartTime ∧
      (p3HandleGeminiMessage 0 none true
        { nextStartTime := 3, sources := [] }).nextStartTime = 0) :=
  ⟨rfl, cursor_monotone_outside_p3_interrupt 0 primedState [0, 0]
    "audio/pcm;rate=24000" ⟨1, 1, 24000, [[0]]⟩ { nextStartTime := 3, sources := [] } rfl⟩

/-- C5 counterexample: in the part_003 revision cited by the claim, an
interruption frame arriving with the cursor at 5 resets it to 0 — the
cursor decreases across that session operation. -/
theorem p3_interrupt_decreases_cursor :
    (p3HandleGeminiMessage 0 none true
      { nextStartTime := 5, sources := [] }).nextStartTime = 0 ∧
    ¬ ((5 : ℚ) ≤ (p3HandleGeminiMessage 0 none true
      { nextStartTime := 5, sources := [] }).nextStartTime) := by
  refine ⟨rfl, ?_⟩
  show ¬ ((5 : ℚ) ≤ 0)
  norm_num

theorem schedStarts_length (cursor : ℚ) (pairs : List (ℚ × ℚ)) :
    (schedStarts cursor pairs).length = pairs.length := by
  induction pairs generalizing cursor with
  | nil => rfl
  | cons p rest ih =>
      obtain ⟨c, d⟩ := p
      simp [schedStarts, ih]

theorem schedStarts_getD_succ (cursor : ℚ) (pairs : List (ℚ × ℚ)) (i : ℕ)
    (h : i + 1 < pairs.length) :
    (schedStarts cursor pairs).getD (i + 1) 0 =
      max ((pairs.getD (i + 1) (0, 0)).1)
        ((schedStarts cursor pairs).getD i 0 + (pairs.getD i (0, 0)).2) := by
  induction pairs generalizing cursor i with
  | nil => simp at h
  | cons p rest ih =>
      obtain ⟨c, d⟩ := p
      cases i with
      | zero =>
          cases rest with
          | nil => simp at h
          | cons q rs =>
              obtain ⟨c2, d2⟩ := q
              simp [schedStarts]
      | succ j =>
          have hj : j + 1 < rest.length := by
            simpa using Nat.lt_of_succ_lt_succ h
          simpa [schedStarts, List.getD_cons_succ] using
            ih (max c cursor + d) j hj

/-- C3: for any sequence of chunks pumped through the scheduler, chunk
i+1 never starts before chunk i has ended (no overlap); when the clock
at pump time has not run more than ε past the end of the previous chunk
(non-interrupted prompt operation), the gap the scheduler introduces is
below ε; and in the concrete scenario — three chunks of 0.5 s, 0.3 s and
0.2 s pumped with the cursor at t0 and the clock never past the pending
cursor — the start times are t0, t0 + 0.5 and t0 + 0.8. -/
theorem playback_no_overlap_no_gap (cursor ε : ℚ) (pairs : List (ℚ × ℚ))
    (i : ℕ) (hi : i + 1 < pairs.length) (hε : 0 < ε)
    (hmono : ∀ j, j + 1 < pairs.length →
      (pairs.getD j (0, 0)).1 ≤ (pairs.getD (j + 1) (0, 0)).1) :
    (schedStarts cursor pairs).getD i 0 + (pairs.getD i (0, 0)).2 ≤
      (schedStarts cursor pairs).getD (i + 1) 0 ∧
    ((pairs.getD (i + 1) (0, 0)).1 <
        (schedStarts cursor pairs).getD i 0 + (pairs.getD i (0, 0)).2 + ε →
      (schedStarts cursor pairs).getD (i + 1) 0 -
        ((schedStarts cursor pairs).getD i 0 + (pairs.getD i (0, 0)).2) < ε) ∧
    (∀ t0 c1 c2 c3 : ℚ, c1 ≤ t0 → c2 ≤ t0 + 1/2 → c3 ≤ t0 + 4/5 →
      schedStarts t0 [(c1, 1/2), (c2, 3/10), (c3, 1/5)] =
        [t0, t0 + 1/2, t0 + 4/5]) := by
  rw [schedStarts_getD_succ cursor pairs i hi]
  refine ⟨le_max_right _ _, fun hlt => ?_, fun t0 c1 c2 c3 h1 h2 h3 => ?_⟩
  · have hm : max ((pairs.getD (i + 1) (0, 0)).1)
        ((schedStarts cursor pairs).getD i 0 + (pairs.getD i (0, 0)).2) <
        (schedStarts cursor pairs).getD i 0 + (pairs.getD i (0, 0)).2 + ε :=
      max_lt hlt (by linarith)
    linarith
  · have e1 : max c1 t0 = t0 := max_eq_right h1
    have e2 : max c2 (t0 + 1/2) = t0 + 1/2 := max_eq_right h2
    have e3 : max c3 (t0 + 1/2 + 3/10) = t0 + 4/5 := by
      rw [show t0 + 1/2 + 3/10 = t0 + 4/5 by ring]
      exact max_eq_right h3
    simp only [schedStarts, e1, e2, e3]

theorem playback_no_overlap_no_gap_witness :
    ((0 : ℕ) + 1 < ([((0 : ℚ), (1 : ℚ)), (0, 1)]).length ∧ (0 : ℚ) < 1) ∧
    (schedStarts 0 [((0 : ℚ), (1 : ℚ)), (0, 1)]).getD 0 0 +
        (([((0 : ℚ), (1 : ℚ)), (0, 1)]).getD 0 (0, 0)).2 ≤
      (schedStarts 0 [((0 : ℚ), (1 : ℚ)), (0, 1)]).getD 1 0 :=
  ⟨⟨by norm_num, by norm_num⟩,
    (playback_no_overlap_no_gap 0 1 [(0, 1), (0, 1)] 0 (by norm_num) (by norm_num)
      (by
        intro j hj
        have hj0 : j = 0 := by simpa using Nat.lt_of_succ_lt_succ hj
        subst hj0
        norm_num)).1⟩

theorem copyToChannel_sampleRate (b : AudioBuffer) (src : List ℚ) (ch : ℕ) :
    (copyToChannel b src ch).sampleRate = b.sampleRate := rfl

theorem foldl_copyToChannel_sampleRate (srcOf : ℕ → List ℚ) (l : List ℕ)
    (buf : AudioBuffer) :
    (l.foldl (fun b i => copyToChannel b (srcOf i) i) buf).sampleRate =
      buf.sampleRate := by
  induction l generalizing buf with
  | nil => rfl
  | cons a l ih => rw [List.foldl_cons, ih, copyToChannel_sampleRate]

/-- Every buffer `decodeAudioData` returns is bound to exactly the
sample rate it was passed. -/
theorem decodeAudioData_sampleRate (data : List ℕ) (r nch : ℕ)
    (b : AudioBuffer) (h : decodeAudioData data r nch = Except.ok b) :
    b.sampleRate = r := by
  simp only [decodeAudioData] at h
  cases hcb : createBuffer nch (data.length / 2 / nch) r with
  | error e =>
      rw [hcb] at h
      simp at h
  | ok buffer =>
      have hsr : buffer.sampleRate = r := by
        simp only [createBuffer] at hcb
        split at hcb
        · simp at hcb
        · rw [Except.ok.injEq] at hcb
          rw [← hcb]
      rw [hcb] at h
      split at h
      · rename_i e heq
        simp at heq
      · rename_i buffer2 heq
        rw [Except.ok.injEq] at heq
        subst heq
        split at h
        · simp at h
        · split at h
          · rw [Except.ok.injEq] at h
            rw [← h, copyToChannel_sampleRate, hsr]
          · rw [Except.ok.injEq] at h
            rw [← h, foldl_copyToChannel_sampleRate, hsr]

/-- C1 (amended): the router parses the declared rate out of the frame's
mimeDescriptor (it is only logged) but decodes every audio payload at
the hard-coded session output rate 24000 — never at the 16 kHz input
capture rate — so any chunk the audio path adds to the playback queue is
bound to sampleRate 24000 regardless of the rate the frame declared. -/
theorem router_decodes_at_fixed_24000 (t : ℚ) (st : ClientState)
    (data : List ℕ) (mime : String) (b : AudioBuffer)
    (hctx : st.contextCreated = true)
    (hb : b ∈ (playAudioResponse t st data mime).audioQueue) :
    b ∈ st.audioQueue ∨
      (b.sampleRate = 24000 ∧ b.sampleRate ≠ inputCaptureRate) := by
  cases hdec : decodeAudioData data 24000 1 with
  | error e =>
      simp only [playAudioResponse, hctx, hdec, if_false, Bool.true_eq_false,
        if_neg, reduceIte] at hb
      exact Or.inl hb
  | ok buf =>
      simp only [playAudioResponse, hctx, hdec, if_false, Bool.true_eq_false,
        if_neg, reduceIte] at hb
      have hq := playNextInQueue_queue_cases t
        { st with contextCreated := true, audioQueue := st.audioQueue ++ [buf] }
      have hb2 : b ∈ st.audioQueue ++ [buf] := by
        rcases hq with hq | hq
        · rw [hq] at hb
          exact hb
        · rw [hq] at hb
          exact List.tail_subset _ hb
      rcases List.mem_append.mp hb2 with hmem | hmem
      · exact Or.inl hmem
      · right
        have hbuf : b = buf := by simpa using hmem
        have hr : b.sampleRate = 24000 := by
          rw [hbuf]
          exact decodeAudioData_sampleRate data 24000 1 buf hdec
        refine ⟨hr, ?_⟩
        rw [hr]
        decide

theorem playAudioResponse_concrete_queue :
    (playAudioResponse 0 primedState [0, 0] "audio/pcm;rate=16000").audioQueue =
      [⟨1, 1, 24000, [[0]]⟩] := by
  norm_num [playAudioResponse, playNextInQueue, decodeAudioData, createBuffer,
    copyToChannel, bytesToInt16, clampUnit, min_def, max_def, primedState, baseState]

theorem router_decodes_at_fixed_24000_witness :
    (primedState.contextCreated = true ∧
      (⟨1, 1, 24000, [[0]]⟩ : AudioBuffer) ∈
        (playAudioResponse 0 primedState [0, 0] "audio/pcm;rate=16000").audioQueue) ∧
    ((⟨1, 1, 24000, [[0]]⟩ : AudioBuffer) ∈ primedState.audioQueue ∨
      ((⟨1, 1, 24000, [[0]]⟩ : AudioBuffer).sampleRate = 24000 ∧
        (⟨1, 1, 24000, [[0]]⟩ : AudioBuffer).sampleRate ≠ inputCaptureRate)) :=
  ⟨⟨rfl, by rw [playAudioResponse_concrete_queue]; exact List.mem_singleton.mpr rfl⟩,
    router_decodes_at_fixed_24000 0 primedState [0, 0] "audio/pcm;rate=16000" _ rfl
      (by rw [playAudioResponse_concrete_queue]; exact List.mem_singleton.mpr rfl)⟩

/-- C1 counterexample: a frame declaring `rate=16000` in its
mimeDescriptor is decoded at 24000 — the queued chunk's sampleRate is
24000, not the declared 16000, so the decoded rate does not equal the
declared rate for every r the frame may carry. -/
theorem router_ignores_declared_rate_16000 :
    parseDeclaredRate "audio/pcm;rate=16000" = 16000 ∧
    ((handleServerMessage 0 primedState
      { type := "audio", data := some [0, 0],
        mimeType := some "audio/pcm;rate=16000" }).audioQueue.map
        AudioBuffer.sampleRate = [24000]) ∧
    (24000 : ℕ) ≠ 16000 := by
  refine ⟨by decide, ?_, by decide⟩
  have hmsg : handleServerMessage 0 primedState
      { type := "audio", data := some [0, 0],
        mimeType := some "audio/pcm;rate=16000" } =
      playAudioResponse 0 primedState [0, 0] "audio/pcm;rate=16000" := by
    unfold handleServerMessage
    rw [if_neg (by decide), if_pos rfl, if_pos (by decide)]
    rfl
  rw [hmsg, playAudioResponse_concrete_queue]
  rfl

theorem decodeAudioData_odd_fails (data : List ℕ) (r nch : ℕ)
    (hodd : data.length % 2 = 1) :
    (decodeAudioData data r nch).isOk = false := by
  simp only [decodeAudioData]
  split
  · rfl
  · rw [if_pos (by omega)]
    rfl

/-- C6 (amended): a byte string of odd length — never a multiple of
2·channelCount — makes `decodeAudioData` fail (the `Int16Array`
RangeError, or the zero-frame NotSupportedError when below one frame)
for every sample rate and channel count, and the audio path catches the
failure: the playback scheduler's queue, cursor, playing flag and
scheduled sources are exactly as before.  (Even byte lengths that are
not multiples of 2·channelCount, by contrast, decode successfully with
the trailing samples dropped — see the counterexample.) -/
theorem decode_odd_bytes_fails_scheduler_intact (data : List ℕ)
    (sampleRate numChannels : ℕ) (t : ℚ) (st : ClientState) (mime : String)
    (hodd : data.length % 2 = 1) (hctx : st.contextCreated = true) :
    (decodeAudioData data sampleRate numChannels).isOk = false ∧
    (playAudioResponse t st data mime).audioQueue = st.audioQueue ∧
    (playAudioResponse t st data mime).nextPlayTime = st.nextPlayTime ∧
    (playAudioResponse t st data mime).isPlaying = st.isPlaying ∧
    (playAudioResponse t st data mime).scheduledStarts = st.scheduledStarts := by
  refine ⟨decodeAudioData_odd_fails data sampleRate numChannels hodd, ?_⟩
  have h24 := decodeAudioData_odd_fails data 24000 1 hodd
  cases hdec : decodeAudioData data 24000 1 with
  | ok buf =>
      rw [hdec] at h24
      exact Bool.noConfusion h24
  | error e =>
      have hq : playAudioResponse t st data mime =
          { st with errors := st.errors ++ ["Playback error: " ++ e] } := by
        simp only [playAudioResponse, hctx, hdec, Bool.true_eq_false, if_false,
          if_neg, reduceIte]
      rw [hq]
      exact ⟨rfl, rfl, rfl, rfl⟩

theorem decode_odd_bytes_fails_scheduler_intact_witness :
    (([0, 0, 0] : List ℕ).length % 2 = 1 ∧ primedState.contextCreated = true) ∧
    ((decodeAudioData [0, 0, 0] 24000 1).isOk = false ∧
      (playAudioResponse 0 primedState [0, 0, 0] "audio/pcm;rate=24000").audioQueue =
        primedState.audioQueue ∧
      (playAudioResponse 0 primedState [0, 0, 0] "audio/pcm;rate=24000").nextPlayTime =
        primedState.nextPlayTime ∧
      (playAudioResponse 0 primedState [0, 0, 0] "audio/pcm;rate=24000").isPlaying =
        primedState.isPlaying ∧
      (playAudioResponse 0 primedState [0, 0, 0] "audio/pcm;rate=24000").scheduledStarts =
        primedState.scheduledStarts) :=
  ⟨⟨by decide, rfl⟩,
    decode_odd_bytes_fails_scheduler_intact [0, 0, 0] 24000 1 0 primedState
      "audio/pcm;rate=24000" (by decide) rfl⟩

/-- C6 counterexample: six bytes with channelCount 2 — a length that is
not a multiple of 2·channelCount = 4 — decode successfully (the third
16-bit sample is silently dropped), so decode does not fail for every
length that is not a multiple of 2·channelCount. -/
theorem decode_even_nonmultiple_succeeds :
    (decodeAudioData [0, 0, 0, 0, 0, 0] 24000 2).isOk = true ∧
    ¬ ((6 : ℕ) % (2 * 2) = 0) := by decide

theorem clampUnit_eq_self (x : ℚ) (h1 : -1 ≤ x) (h2 : x ≤ 1) :
    clampUnit x = x := by
  unfold clampUnit
  rw [min_eq_right h2, max_eq_right h1]

theorem jsRound_unit_bounds (x : ℚ) (h1 : -1 ≤ x) (h2 : x ≤ 1) :
    -32767 ≤ jsRound (x * 32767) ∧ jsRound (x * 32767) ≤ 32767 := by
  unfold jsRound
  constructor
  · apply Int.le_floor.mpr
    push_cast
    nlinarith
  · have hlt : Int.floor (x * 32767 + 1/2) < 32768 := by
      apply Int.floor_lt.mpr
      push_cast
      nlinarith
    omega

theorem bytesToInt16_int16ToBytes (v : ℤ) (rest : List ℕ)
    (h1 : -32768 ≤ v) (h2 : v < 32768) :
    bytesToInt16 (int16ToBytes v ++ rest) = v :: bytesToInt16 rest := by
  unfold int16ToBytes
  have hnn : 0 ≤ v % 65536 := Int.emod_nonneg v (by norm_num)
  have hlt : v % 65536 < 65536 := Int.emod_lt_of_pos v (by norm_num)
  have huz : ((v % 65536).toNat : ℤ) = v % 65536 := Int.toNat_of_nonneg hnn
  simp only [List.cons_append, List.nil_append, bytesToInt16]
  congr 1
  have hmd : (v % 65536).toNat % 256 + 256 * ((v % 65536).toNat / 256) =
      (v % 65536).toNat := Nat.mod_add_div _ _
  rw [hmd]
  split
  · omega
  · omega

theorem bytesToInt16_encode (xs : List ℚ)
    (h : ∀ x ∈ xs, -1 ≤ x ∧ x ≤ 1) :
    bytesToInt16 (encodeAudioData xs) =
      xs.map (fun x => jsRound (x * 32767)) := by
  induction xs with
  | nil => rfl
  | cons x rest ih =>
      have hx := h x (by simp)
      have hb := jsRound_unit_bounds x hx.1 hx.2
      rw [encodeAudioData, clampUnit_eq_self x hx.1 hx.2,
        bytesToInt16_int16ToBytes _ _ (by omega) (by omega),
        ih (fun y hy => h y (by simp [hy])), List.map_cons]

theorem encodeAudioData_length (xs : List ℚ) :
    (encodeAudioData xs).length = 2 * xs.length := by
  induction xs with
  | nil => rfl
  | cons x rest ih =>
      rw [encodeAudioData, List.length_append, ih]
      simp [int16ToBytes]
      ring

theorem decode_encode_sample_error (x : ℚ) (h1 : -1 ≤ x) (h2 : x ≤ 1) :
    |clampUnit ((jsRound (x * 32767) : ℚ) / 32768) - x| ≤ 3 / 65536 := by
  have hb := jsRound_unit_bounds x h1 h2
  have hfl : ((jsRound (x * 32767) : ℚ)) ≤ x * 32767 + 1/2 := by
    unfold jsRound
    exact Int.floor_le _
  have hfg : x * 32767 + 1/2 - 1 < ((jsRound (x * 32767) : ℚ)) := by
    unfold jsRound
    exact Int.sub_one_lt_floor _
  have hcq1 : ((jsRound (x * 32767) : ℚ)) ≤ 32767 := by
    exact_mod_cast hb.2
  have hcq2 : (-32767 : ℚ) ≤ ((jsRound (x * 32767) : ℚ)) := by
    exact_mod_cast hb.1
  rw [clampUnit_eq_self _ (by linarith) (by linarith)]
  rw [abs_le]
  constructor
  · linarith
  · linarith

theorem decode_encode_ok (xs : List ℚ) (r : ℕ) (hne : xs ≠ [])
    (h : ∀ x ∈ xs, -1 ≤ x ∧ x ≤ 1) :
    decodeAudioData (encodeAudioData xs) r 1 =
      Except.ok ⟨1, xs.length, r,
        [xs.map (fun x => clampUnit ((jsRound (x * 32767) : ℚ) / 32768))]⟩ := by
  have hlen : (encodeAudioData xs).length = 2 * xs.length :=
    encodeAudioData_length xs
  have hn : xs.length ≠ 0 := fun hc => hne (List.length_eq_zero.mp hc)
  have hexp : (encodeAudioData xs).length / 2 / 1 = xs.length := by
    rw [hlen]
    omega
  simp only [decodeAudioData, hexp, createBuffer, if_neg hn]
  rw [if_neg (by rw [hlen]; omega)]
  rw [if_pos trivial]
  rw [bytesToInt16_encode xs h, List.map_map]
  congr 1
  simp [copyToChannel, Function.comp, List.take_of_length_le,
    List.drop_eq_nil_of_le]

/-- C2 (amended): decoding the encoding of any nonempty frame of
samples in [-1, 1] (single channel, any rate) succeeds, yields the same
number of samples, and reproduces each sample within 3/65536 — one and
a half 16-bit steps.  (The claimed 1/32768 bound is too tight: the
rounding error of up to half a step combines with the 32767-up/32768-
down scale mismatch, which contributes up to one more step; the
counterexample exhibits an in-range sample off by 43/1048576.) -/
theorem decode_encode_roundtrip_error_bound (xs : List ℚ) (r : ℕ) (i : ℕ)
    (h : ∀ x ∈ xs, -1 ≤ x ∧ x ≤ 1) (hne : xs ≠ []) (hi : i < xs.length) :
    (decodeAudioData (encodeAudioData xs) r 1).isOk = true ∧
    (channel0 (decodeAudioData (encodeAudioData xs) r 1)).length = xs.length ∧
    |(channel0 (decodeAudioData (encodeAudioData xs) r 1)).getD i 0 -
        xs.getD i 0| ≤ 3 / 65536 := by
  rw [decode_encode_ok xs r hne h]
  refine ⟨rfl, by simp [channel0], ?_⟩
  have hch : channel0 (Except.ok
      (⟨1, xs.length, r,
        [xs.map (fun x => clampUnit ((jsRound (x * 32767) : ℚ) / 32768))]⟩ :
        AudioBuffer)) =
      xs.map (fun x => clampUnit ((jsRound (x * 32767) : ℚ) / 32768)) := by
    simp [channel0]
  rw [hch]
  have hmi : i < (xs.map
      (fun x => clampUnit ((jsRound (x * 32767) : ℚ) / 32768))).length := by
    simpa using hi
  rw [List.getD_eq_getElem _ _ hmi, List.getD_eq_getElem _ _ hi,
    List.getElem_map]
  have hx := h _ (List.getElem_mem hi)
  exact decode_encode_sample_error _ hx.1 hx.2

theorem decode_encode_roundtrip_error_bound_witness :
    (decodeAudioData (encodeAudioData [(1/2 : ℚ)]) 24000 1).isOk = true ∧
    (channel0 (decodeAudioData (encodeAudioData [(1/2 : ℚ)]) 24000 1)).length = 1 ∧
    |(channel0 (decodeAudioData (encodeAudioData [(1/2 : ℚ)]) 24000 1)).getD 0 0 -
        ([(1/2 : ℚ)]).getD 0 0| ≤ 3 / 65536 :=
  have hmain := decode_encode_roundtrip_error_bound [(1/2 : ℚ)] 24000 0
    (by intro x hx; rw [List.mem_singleton] at hx; subst hx; norm_num)
    (by simp) (by simp)
  ⟨hmain.1, hmain.2.1, hmain.2.2⟩

/-- C2 counterexample: the in-range sample -1048555/1048576 (a value a
float32 can hold exactly) encodes to the int16 value -32766, which
decodes to -16383/16384; the round-trip error is 43/1048576, which
exceeds the claimed bound 1/32768 = 32/1048576. -/
theorem quantization_error_exceeds_claimed_bound :
    (-1 ≤ (-1048555/1048576 : ℚ) ∧ (-1048555/1048576 : ℚ) ≤ 1) ∧
    channel0 (decodeAudioData (encodeAudioData [(-1048555/1048576 : ℚ)]) 24000 1) =
      [(-16383/16384 : ℚ)] ∧
    ¬ (|(-16383/16384 : ℚ) - (-1048555/1048576 : ℚ)| ≤ 1 / 32768) := by
  refine ⟨⟨by norm_num, by norm_num⟩, ?_, ?_⟩
  · have henc : encodeAudioData [(-1048555/1048576 : ℚ)] = [2, 128] := by
      norm_num [encodeAudioData, int16ToBytes, jsRound, clampUnit, min_def, max_def]
      decide
    rw [henc]
    norm_num [decodeAudioData, createBuffer, copyToChannel, channel0,
      bytesToInt16, clampUnit, min_def, max_def]
  · rw [show ((-16383/16384 : ℚ) - (-1048555/1048576 : ℚ)) = 43/1048576 from by
      norm_num]
    rw [abs_of_pos (by norm_num : (0 : ℚ) < 43/1048576)]
    norm_num
